import Mathlib

/-!
Verification development for the mutual-fund return-calculation engine
(`calculator.py` and the inline analysis loop of `app.py`).

The model is a shallow embedding:
* calendar dates are triples of integers ordered lexicographically, with the
  standard civil-calendar day count for date subtraction;
* the monthly investment schedule `pd.date_range(start, end, freq='MS')` is
  the list of first-of-month dates lying inside `[start, end]`;
* a NAV series is a list of `(date, nav)` points with rational NAV values
  (the provider coerces NAVs to numbers; `calculate_sip_returns` additionally
  drops non-numeric rows before use, so in-series values are numeric);
* `DataFrame.asof` on a (sorted) series is the last listed point at or before
  the lookup date;
* money amounts and NAVs are exact rationals in the valuation engine, and
  real numbers in the annualized-return solver, whose exponentiation
  `(1+r) ** (days/365)` is real `rpow`;
* the float `NaN` produced in `app.py` when an as-of lookup finds no row is
  modelled by `Option ℚ` (`none` = NaN), which absorbs through `+`, `*`, `/`;
* the Python exception channel of `calculate_xirr`'s `try/except` is modelled
  with `Except Unit`: checked division and exponentiation signal the
  conditions that raise `ZeroDivisionError`/domain errors, and the surrounding
  handler maps any such signal to the fallback result `0.0`.
-/

namespace MF

/-! ## Calendar dates -/

/-- A civil calendar date, as `pandas.Timestamp` dates compare: by year, then
month, then day. -/
structure Date where
  year : ℤ
  month : ℤ
  day : ℤ
  deriving DecidableEq, Repr

/-- Boolean chronological comparison (lexicographic on year, month, day). -/
def Date.ble (a b : Date) : Bool :=
  a.year < b.year ||
    (a.year = b.year && (a.month < b.month ||
      (a.month = b.month && a.day ≤ b.day)))

/-- Strict boolean chronological comparison. -/
def Date.blt (a b : Date) : Bool :=
  a.year < b.year ||
    (a.year = b.year && (a.month < b.month ||
      (a.month = b.month && a.day < b.day)))

instance : LE Date := ⟨fun a b => Date.ble a b = true⟩
instance : LT Date := ⟨fun a b => Date.blt a b = true⟩

instance (a b : Date) : Decidable (a ≤ b) :=
  inferInstanceAs (Decidable (Date.ble a b = true))

instance (a b : Date) : Decidable (a < b) :=
  inferInstanceAs (Decidable (Date.blt a b = true))

theorem Date.le_iff (a b : Date) :
    a ≤ b ↔ (a.year < b.year ∨ (a.year = b.year ∧ (a.month < b.month ∨
      (a.month = b.month ∧ a.day ≤ b.day)))) := by
  show Date.ble a b = true ↔ _
  simp [Date.ble]

theorem Date.lt_iff (a b : Date) :
    a < b ↔ (a.year < b.year ∨ (a.year = b.year ∧ (a.month < b.month ∨
      (a.month = b.month ∧ a.day < b.day)))) := by
  show Date.blt a b = true ↔ _
  simp [Date.blt]

/-- Days since 1970-01-01 (proleptic Gregorian; the standard civil-calendar
counting used by `pandas.Timestamp` subtraction). -/
def Date.toDays (d : Date) : ℤ :=
  let y : ℤ := if d.month ≤ 2 then d.year - 1 else d.year
  let era : ℤ := y / 400
  let yoe : ℤ := y - era * 400
  let mp : ℤ := if d.month ≤ 2 then d.month + 9 else d.month - 3
  let doy : ℤ := (153 * mp + 2) / 5 + d.day - 1
  let doe : ℤ := yoe * 365 + yoe / 4 - yoe / 100 + doy
  era * 146097 + doe - 719468

/-- Day difference `(b - a).days` between two timestamps. -/
def daysBetween (a b : Date) : ℤ := b.toDays - a.toDays

/-! ## Month-start investment schedule

`investment_dates = pd.date_range(start=start_date, end=end_date, freq='MS')`
(`calculator.py` line 50 and `app.py` line 125): all first-of-month dates
lying within `[start, end]`. -/

/-- Linear month index of a date's month. -/
def monthIndex (d : Date) : ℤ := 12 * d.year + (d.month - 1)

/-- The first day of the month with the given linear index. -/
def monthStartOfIndex (i : ℤ) : Date := ⟨i / 12, i % 12 + 1, 1⟩

/-- The schedule `pd.date_range(start, end, freq='MS')`: first-of-month dates inside
`[s, e]`, in chronological order. -/
def dateRangeMS (s e : Date) : List Date :=
  ((List.range (monthIndex e - monthIndex s + 1).toNat).map
    (fun k : ℕ => monthStartOfIndex (monthIndex s + (k : ℤ)))).filter
      (fun d => Date.ble s d && Date.ble d e)

/-! ## NAV series -/

/-- One row of a fund's historical-NAV table (after the provider's numeric
coercion: the NAV is a number; it may be non-positive in pathological data). -/
structure NavPoint where
  date : Date
  nav : ℚ
  deriving DecidableEq, Repr

/-- The restriction `hist_data[(hist_data.index >= start) & (hist_data.index <= end)]`. -/
def tradeWindow (s e : Date) (hist : List NavPoint) : List NavPoint :=
  hist.filter (fun p => Date.ble s p.date && Date.ble p.date e)

/-- The lookup `trade_data.asof(d)['nav']`: the NAV of the last listed row dated at or
before `d`; `none` models the `NaN` pandas returns when no such row exists. -/
def asof (trade : List NavPoint) (d : Date) : Option ℚ :=
  ((trade.filter (fun p => Date.ble p.date d)).getLast?).map NavPoint.nav

/-! ## SIP accumulation, `calculator.py` version (lines 63-87)

The loop body over one investment date: as-of lookup, then the robustness
check `pd.notna(nav_on_date) and nav_on_date > 0`, then accumulate
`units += amount / nav` and `invested += amount`; otherwise the date is
skipped. -/

/-- One iteration of the `calculate_sip_returns` investment-date loop; the
accumulator is `(total_units, total_invested)`. -/
def sipStep (amount : ℚ) (trade : List NavPoint) (acc : ℚ × ℚ) (d : Date) :
    ℚ × ℚ :=
  match asof trade d with
  | none => acc
  | some nav => if 0 < nav then (acc.1 + amount / nav, acc.2 + amount) else acc

/-- The whole investment-date loop of `calculate_sip_returns`. -/
def sipAccumulate (amount : ℚ) (trade : List NavPoint) (dates : List Date) :
    ℚ × ℚ :=
  dates.foldl (sipStep amount trade) (0, 0)

/-- Decidable test for "this investment date is matched": its as-of lookup
yields a (numeric) NAV that is strictly positive. -/
def sipMatched (trade : List NavPoint) (d : Date) : Bool :=
  match asof trade d with
  | none => false
  | some nav => decide (0 < nav)

/-- The NAV a matched date buys at (defaulting to `0` for unmatched dates;
only used under a `sipMatched` guard). -/
def navAt (trade : List NavPoint) (d : Date) : ℚ := (asof trade d).getD 0

/-- Per-fund core of `calculate_sip_returns`: `none` when the fund is skipped
(empty history, empty trade window, or zero matched contributions). The
terminal `pd.isna(final_value)` check of the source cannot fire in the exact
model (a product of rationals is never `NaN`) and is omitted. -/
structure SipFundResult where
  total_invested : ℚ
  total_units : ℚ
  final_value : ℚ
  deriving DecidableEq, Repr

/-- One fund of `calculate_sip_returns`, numeric core (presentation formatting
and the XIRR column are handled separately). -/
def calcSipFund (amount : ℚ) (s e : Date) (hist : List NavPoint) :
    Option SipFundResult :=
  if hist = [] then none
  else
    let trade := tradeWindow s e hist
    if trade = [] then none
    else
      let acc := sipAccumulate amount trade (dateRangeMS s e)
      if acc.2 = 0 then none
      else
        match trade.getLast? with
        | none => none
        | some lastRow => some ⟨acc.2, acc.1, acc.1 * lastRow.nav⟩

/-! ## SIP accumulation, `app.py` inline version (lines 144-160)

The inline loop has no `pd.notna`/positivity check.  When the as-of lookup
finds no row it returns `NaN`; `monthly_investment / NaN` is `NaN` (no
exception), so `total_units` becomes `NaN` while `total_invested` still
increases.  A zero NAV raises `ZeroDivisionError`, which the loop's
`except (TypeError, KeyError, IndexError)` does not catch, so it escapes the
handler.  `Option ℚ` models a possibly-`NaN` float; `Except Unit` models the
escaping exception. -/

/-- Multiplication of possibly-`NaN` values, absorbing `NaN`. -/
def nanMul (a b : Option ℚ) : Option ℚ := a.bind fun x => b.map fun y => x * y

/-- Addition of possibly-`NaN` values, absorbing `NaN`. -/
def nanAdd (a b : Option ℚ) : Option ℚ := a.bind fun x => b.map fun y => x + y

/-- One iteration of the `app.py` investment-date loop; the accumulator is
`(total_units, total_invested)` with a possibly-`NaN` unit count, under the
exception channel for an uncaught `ZeroDivisionError`. -/
def appSipStep (amount : ℚ) (trade : List NavPoint)
    (acc : Except Unit (Option ℚ × ℚ)) (d : Date) :
    Except Unit (Option ℚ × ℚ) :=
  match acc with
  | .error e => .error e
  | .ok (units, invested) =>
    match asof trade d with
    | none => .ok (none, invested + amount)
    | some nav =>
      if nav = 0 then .error ()
      else .ok (units.map (· + amount / nav), invested + amount)

/-- The whole investment-date loop of the `app.py` handler. -/
def appSipAccumulate (amount : ℚ) (trade : List NavPoint)
    (dates : List Date) : Except Unit (Option ℚ × ℚ) :=
  dates.foldl (appSipStep amount trade) (.ok (some 0, 0))

/-- Per-fund figures produced by the `app.py` handler; units and final value
may be `NaN`. -/
structure AppFundResult where
  total_invested : ℚ
  total_units : Option ℚ
  final_value : Option ℚ
  deriving DecidableEq, Repr

/-- The `app.py` per-fund computation: `none` when the fund is skipped with a
warning (no history, no rows in range, or zero invested), `error` when an
uncaught exception escapes. -/
def appSipFund (amount : ℚ) (s e : Date) (dates : List Date)
    (hist : List NavPoint) : Except Unit (Option AppFundResult) :=
  if hist = [] then .ok none
  else
    let trade := tradeWindow s e hist
    if trade = [] then .ok none
    else
      match appSipAccumulate amount trade dates with
      | .error e => .error e
      | .ok (units, invested) =>
        if invested = 0 then .ok none
        else
          match trade.getLast? with
          | none => .ok none
          | some lastRow =>
            .ok (some ⟨invested, units, nanMul units (some lastRow.nav)⟩)

/-- Outcome of one "Analyze Returns" action: `failure` is the
`if not all_results: st.error(...)` branch; `success` carries the per-scheme
results and the portfolio totals. -/
inductive AnalyzeOutcome where
  | failure
  | success (results : List (String × AppFundResult)) (totalInvested : ℚ)
      (totalFinal : Option ℚ)
  deriving DecidableEq, Repr

/-- Fold step of the `app.py` fund loop: skipped funds leave results and
totals unchanged; a produced result is appended and added into both totals. -/
def analyzeStep (amount : ℚ) (s e : Date) (dates : List Date)
    (acc : Except Unit (List (String × AppFundResult) × ℚ × Option ℚ))
    (fund : String × List NavPoint) :
    Except Unit (List (String × AppFundResult) × ℚ × Option ℚ) :=
  match acc with
  | .error er => .error er
  | .ok (results, totI, totF) =>
    match appSipFund amount s e dates fund.2 with
    | .error er => .error er
    | .ok none => .ok (results, totI, totF)
    | .ok (some r) =>
      .ok (results ++ [(fund.1, r)], totI + r.total_invested,
        nanAdd totF r.final_value)

/-- The `app.py` "Analyze Returns" handler over the selected funds. -/
def analyzeReturns (funds : List (String × List NavPoint)) (s e : Date)
    (amount : ℚ) : Except Unit AnalyzeOutcome :=
  match funds.foldl (analyzeStep amount s e (dateRangeMS s e))
      (.ok ([], 0, some 0)) with
  | .error er => .error er
  | .ok (results, totI, totF) =>
    if results = [] then .ok .failure else .ok (.success results totI totF)

/-! ## Lumpsum valuation (`calculate_lumpsum_returns`, lines 114-150) -/

/-- Per-fund figures of `calculate_lumpsum_returns` (numeric core; a zero
entry NAV would raise an uncaught `ZeroDivisionError` in the source, and the
exact model's `amount / 0 = 0` junk value is never asserted about). -/
structure LumpsumRecord where
  total_invested : ℚ
  units_bought : ℚ
  final_value : ℚ
  start_nav : ℚ
  end_nav : ℚ
  actual_start_date : Date
  actual_end_date : Date
  deriving DecidableEq, Repr

/-- One fund of `calculate_lumpsum_returns`: entry is the first row of the trade
window, exit the last; `none` when the fund is skipped. -/
def lumpsumFund (amount : ℚ) (s e : Date) (hist : List NavPoint) :
    Option LumpsumRecord :=
  if hist = [] then none
  else
    match (tradeWindow s e hist).head?, (tradeWindow s e hist).getLast? with
    | some startRecord, some endRecord =>
      some ⟨amount, amount / startRecord.nav,
        amount / startRecord.nav * endRecord.nav,
        startRecord.nav, endRecord.nav, startRecord.date, endRecord.date⟩
    | _, _ => none

/-- Fold step of the `calculate_lumpsum_returns` fund loop: a skipped fund
leaves results and totals unchanged; a produced record is appended and its
invested amount and final value are added into the running totals. -/
def lumpsumStep (amount : ℚ) (s e : Date)
    (acc : List (String × LumpsumRecord) × ℚ × ℚ)
    (fund : String × List NavPoint) :
    List (String × LumpsumRecord) × ℚ × ℚ :=
  match lumpsumFund amount s e fund.2 with
  | none => acc
  | some r =>
    (acc.1 ++ [(fund.1, r)], acc.2.1 + r.total_invested,
      acc.2.2 + r.final_value)

/-- The multi-fund loop of `calculate_lumpsum_returns`: produced results plus
the two portfolio totals. -/
def lumpsumReturns (funds : List (String × List NavPoint)) (s e : Date)
    (amount : ℚ) : List (String × LumpsumRecord) × ℚ × ℚ :=
  funds.foldl (lumpsumStep amount s e) ([], 0, 0)

/-! ## CAGR (`calculate_cagr`, lines 4-13) -/

/-- The solver `calculate_cagr`: degenerate cases return `0`; otherwise the annualized
growth formula with real exponentiation. -/
noncomputable def calculate_cagr (total_investment current_value : ℝ)
    (start_date end_date : Date) : ℝ :=
  if total_investment = 0 then 0
  else
    if (daysBetween start_date end_date : ℝ) / 365.25 ≤ 0 then 0
    else
      ((current_value / total_investment) ^
        ((1 : ℝ) / ((daysBetween start_date end_date : ℝ) / 365.25)) - 1) * 100

/-- The per-fund CAGR of `calculate_lumpsum_returns` (line 137): computed from
the fund's actual entry and exit dates; `0` for a skipped fund (the source
never reaches the call then). -/
noncomputable def lumpsumCagr (amount : ℚ) (s e : Date)
    (hist : List NavPoint) : ℝ :=
  match lumpsumFund amount s e hist with
  | none => 0
  | some r =>
    calculate_cagr (r.total_invested : ℝ) (r.final_value : ℝ)
      r.actual_start_date r.actual_end_date

/-! ## XIRR (`xirr_func` and `calculate_xirr`, lines 15-43) -/

/-- A dated cashflow; negative values are outflows. -/
structure Cashflow where
  date : Date
  value : ℝ

/-- The objective `xirr_func`: the net present value, discounting each cashflow to
the first cashflow's date.  (On an empty list the Python subscript
`cashflows[0]` would raise, but `calculate_xirr` only evaluates it behind the
`len >= 2` guard; the `[]` case here is an arbitrary unreachable value.) -/
noncomputable def xirr_func (rate : ℝ) (cashflows : List Cashflow) : ℝ :=
  match cashflows with
  | [] => 0
  | c0 :: _ =>
    (cashflows.map (fun cf =>
      cf.value / (1 + rate) ^ ((daysBetween c0.date cf.date : ℝ) / 365))).sum

/-- Sign function `np.sign` on a real value. -/
noncomputable def npSign (x : ℝ) : ℝ :=
  if x < 0 then -1 else if x = 0 then 0 else 1

/-- Exponentiation with the error channel of the solver's `try` block: a zero
base with negative exponent raises `ZeroDivisionError`.  A negative base is
also flagged: it falls outside the real-valued model (Python would produce a
complex result that then corrupts the sign tests); inside the solver the base
`1 + rate` stays positive, so the case is unreachable. -/
noncomputable def safePow (b ex : ℝ) : Except Unit ℝ :=
  if b = 0 ∧ ex < 0 then .error ()
  else if b < 0 then .error ()
  else .ok (b ^ ex)

/-- Division with the error channel: a zero divisor raises
`ZeroDivisionError`. -/
noncomputable def safeDiv (a b : ℝ) : Except Unit ℝ :=
  if b = 0 then .error () else .ok (a / b)

/-- The term-by-term evaluation of `xirr_func` under the error channel. -/
noncomputable def sumTermsE (rate : ℝ) (origin : Date) :
    List Cashflow → Except Unit ℝ
  | [] => .ok 0
  | cf :: rest => do
    let p ← safePow (1 + rate) ((daysBetween origin cf.date : ℝ) / 365)
    let t ← safeDiv cf.value p
    let s ← sumTermsE rate origin rest
    .ok (t + s)

/-- Evaluation of `xirr_func` under the error channel. -/
noncomputable def xirr_funcE (rate : ℝ) (cashflows : List Cashflow) :
    Except Unit ℝ :=
  match cashflows with
  | [] => .ok 0
  | c0 :: _ => sumTermsE rate c0.date cashflows

/-- The bisection loop of `calculate_xirr` (lines 31-41), with fuel
`max_iter`.  The last parameter carries the previously computed midpoint,
returned (times 100) when the fuel runs out; each iteration first checks the
bracket width against `tol`, then narrows towards the end whose objective
value shares the midpoint's sign. -/
noncomputable def bisectLoopE (cashflows : List Cashflow) (tol : ℝ) :
    Nat → ℝ → ℝ → ℝ → ℝ → Except Unit ℝ
  | 0, _, _, _, lastMid => .ok (lastMid * 100)
  | n + 1, low, high, f_low, _ =>
    if |high - low| < tol then .ok ((low + high) / 2 * 100)
    else do
      let f_mid ← xirr_funcE ((low + high) / 2) cashflows
      if npSign f_mid = npSign f_low then
        bisectLoopE cashflows tol n ((low + high) / 2) high f_mid
          ((low + high) / 2)
      else
        bisectLoopE cashflows tol n low ((low + high) / 2) f_low
          ((low + high) / 2)

/-- The body of `calculate_xirr`'s `try` block after the length guard:
evaluate the objective at the bracket ends `-0.99` and `5.0`; without a sign
difference return the `0.0` fallback, otherwise bisect.  (If `max_iter = 0`
the Python loop never binds `mid_rate` and the trailing `return` raises an
uncaught `NameError`; the model seeds the carried midpoint with `0`, which is
only reachable in that degenerate case.) -/
noncomputable def xirrTry (cashflows : List Cashflow) (max_iter : ℕ)
    (tol : ℝ) : Except Unit ℝ := do
  let f_low ← xirr_funcE (-0.99) cashflows
  let f_high ← xirr_funcE 5 cashflows
  if f_low * f_high > 0 then .ok 0
  else bisectLoopE cashflows tol max_iter (-0.99) 5 f_low 0

/-- The solver `calculate_xirr`: length guard, then the `try` body with
`except (ValueError, ZeroDivisionError): return 0.0` mapping any signalled
arithmetic failure to `0.0`.  The `guess` parameter is accepted and, as in the
source, never read. -/
noncomputable def calculate_xirr (cashflows : List Cashflow) (guess : ℝ)
    (max_iter : ℕ) (tol : ℝ) : ℝ :=
  if cashflows.length < 2 then 0
  else
    match xirrTry cashflows max_iter tol with
    | .error _ => 0
    | .ok v => v

/-! ## Order helper lemmas -/

theorem Date.le_refl (a : Date) : a ≤ a := by
  rw [Date.le_iff]; omega

@[simp] theorem Date.year_mk (y m d : ℤ) : (Date.mk y m d).year = y := rfl

@[simp] theorem Date.month_mk (y m d : ℤ) : (Date.mk y m d).month = m := rfl

@[simp] theorem Date.day_mk (y m d : ℤ) : (Date.mk y m d).day = d := rfl

/-! ## Claim C1: the SIP investment-date schedule -/

/-- C1, counterexample: for the window 2020-01-15 .. 2020-03-10 (start
strictly before end, start not the first of its month) the generated schedule
does not contain 2020-01-01, the first day of the start month — contrary to
the claim that it always does. -/
theorem c1_counterexample :
    (⟨2020, 1, 15⟩ : Date) < ⟨2020, 3, 10⟩ ∧
      (⟨2020, 1, 1⟩ : Date) ∉ dateRangeMS ⟨2020, 1, 15⟩ ⟨2020, 3, 10⟩ := by
  decide

/-- C1, amended: for a query window `[s, e]` with `s` strictly before `e`
(months being valid calendar months), the schedule generated for
`calculate_sip_returns` consists exactly of the first calendar days of months
that lie *within* `[s, e]` — purely calendar-derived, independent of any NAV
series.  In particular, when `s` is not the first of its month, the first day
of `s`'s month is *not* an investment date (it is before `s`). -/
theorem c1_sip_schedule (s e : Date) (hs1 : 1 ≤ s.month) (hs2 : s.month ≤ 12)
    (he1 : 1 ≤ e.month) (he2 : e.month ≤ 12) (hlt : s < e) (d : Date) :
    d ∈ dateRangeMS s e ↔
      d.day = 1 ∧ 1 ≤ d.month ∧ d.month ≤ 12 ∧ s ≤ d ∧ d ≤ e := by
  constructor
  · intro hd
    unfold dateRangeMS at hd
    rw [List.mem_filter] at hd
    obtain ⟨hmem, hrange⟩ := hd
    rw [List.mem_map] at hmem
    obtain ⟨k, hk, hval⟩ := hmem
    rw [Bool.and_eq_true] at hrange
    have h1 : s ≤ d := hrange.1
    have h2 : d ≤ e := hrange.2
    subst hval
    refine ⟨rfl, ?_, ?_, h1, h2⟩
    · simp only [monthStartOfIndex, Date.month_mk]; omega
    · simp only [monthStartOfIndex, Date.month_mk]; omega
  · rintro ⟨hday, hm1, hm2, hsd, hde⟩
    have hsd' := (Date.le_iff s d).1 hsd
    have hde' := (Date.le_iff d e).1 hde
    obtain ⟨dy, dm, dd⟩ := d
    simp only [Date.year_mk, Date.month_mk, Date.day_mk] at hday hm1 hm2 hsd' hde'
    unfold dateRangeMS monthStartOfIndex monthIndex
    rw [List.mem_filter, List.mem_map]
    refine ⟨⟨(12 * dy + (dm - 1) -
      (12 * s.year + (s.month - 1))).toNat, ?_, ?_⟩, ?_⟩
    · rw [List.mem_range]; omega
    · rw [Date.mk.injEq]
      refine ⟨?_, ?_, hday.symm⟩ <;> omega
    · rw [Bool.and_eq_true]
      exact ⟨hsd, hde⟩

/-- C1, witness: in the window 2020-01-15 .. 2020-03-10, 2020-02-01 is an
investment date by the characterization. -/
theorem c1_witness :
    (⟨2020, 2, 1⟩ : Date) ∈ dateRangeMS ⟨2020, 1, 15⟩ ⟨2020, 3, 10⟩ :=
  (c1_sip_schedule ⟨2020, 1, 15⟩ ⟨2020, 3, 10⟩ (by decide) (by decide)
    (by decide) (by decide) (by decide) ⟨2020, 2, 1⟩).mpr (by decide)

/-! ## Claim C2: SIP accumulation correctness -/

theorem sipStep_matched (amount : ℚ) (trade : List NavPoint) (acc : ℚ × ℚ)
    (d : Date) (h : sipMatched trade d = true) :
    sipStep amount trade acc d = (acc.1 + amount / navAt trade d, acc.2 + amount) := by
  unfold sipStep sipMatched navAt at *
  cases hasof : asof trade d with
  | none => rw [hasof] at h; cases h
  | some nav =>
    rw [hasof] at h
    simp only [decide_eq_true_eq] at h
    simp [hasof, h]

theorem sipStep_unmatched (amount : ℚ) (trade : List NavPoint) (acc : ℚ × ℚ)
    (d : Date) (h : sipMatched trade d = false) :
    sipStep amount trade acc d = acc := by
  unfold sipStep sipMatched at *
  cases hasof : asof trade d with
  | none => simp [hasof]
  | some nav =>
    rw [hasof] at h
    simp only [decide_eq_false_iff_not] at h
    simp [hasof, h]

theorem sipAccumulate_from (amount : ℚ) (trade : List NavPoint)
    (dates : List Date) :
    ∀ acc : ℚ × ℚ,
      dates.foldl (sipStep amount trade) acc =
        (acc.1 + ((dates.filter (sipMatched trade)).map
            (fun d => amount / navAt trade d)).sum,
          acc.2 + (dates.countP (sipMatched trade) : ℚ) * amount) := by
  induction dates with
  | nil => intro acc; simp
  | cons d dates ih =>
    intro acc
    rw [List.foldl_cons, ih]
    by_cases h : sipMatched trade d = true
    · rw [sipStep_matched amount trade acc d h, List.filter_cons_of_pos h,
        List.countP_cons_of_pos _ _ h]
      simp only [List.map_cons, List.sum_cons]
      rw [Prod.mk.injEq]
      constructor
      · show acc.1 + amount / navAt trade d + _ = _
        ring
      · show acc.2 + amount + _ = _
        push_cast
        ring
    · have h' : sipMatched trade d = false := by simpa using h
      rw [sipStep_unmatched amount trade acc d h',
        List.filter_cons_of_neg (by simp [h']),
        List.countP_cons_of_neg _ _ (by simp [h'])]

/-- C2 (confirmed): in the SIP loop of `calculate_sip_returns`, the invested
total is (number of matched dates) × amount, the unit total is the sum of
`amount / nav_on_date` over the matched dates, and a date whose as-of lookup
is missing or non-positive leaves the accumulator unchanged (it is skipped,
adding no units and no invested capital). -/
theorem c2_sip_accumulation (amount : ℚ) (trade : List NavPoint)
    (dates : List Date) :
    (sipAccumulate amount trade dates).2 =
        (dates.countP (sipMatched trade) : ℚ) * amount ∧
      (sipAccumulate amount trade dates).1 =
        ((dates.filter (sipMatched trade)).map
          (fun d => amount / navAt trade d)).sum ∧
      ∀ (acc : ℚ × ℚ) (d : Date), sipMatched trade d = false →
        sipStep amount trade acc d = acc := by
  unfold sipAccumulate
  rw [sipAccumulate_from]
  exact ⟨by ring, by ring, fun acc d h => sipStep_unmatched amount trade acc d h⟩

/-- C2, witness: on a series starting 2020-02-10, the investment date
2020-01-01 has no as-of match and is skipped: the loop step leaves the
accumulator `(3, 5)` unchanged; and on the schedule 2020-01..2020-03 exactly
one date matches, so `total_invested = 1 × 1000`. -/
theorem c2_witness :
    sipStep 1000 [⟨⟨2020, 2, 10⟩, 10⟩] (3, 5) ⟨2020, 1, 1⟩ = (3, 5) ∧
      (sipAccumulate 1000 [⟨⟨2020, 2, 10⟩, 10⟩]
        (dateRangeMS ⟨2020, 1, 1⟩ ⟨2020, 3, 1⟩)).2 =
        ((dateRangeMS ⟨2020, 1, 1⟩ ⟨2020, 3, 1⟩).countP
          (sipMatched [⟨⟨2020, 2, 10⟩, 10⟩]) : ℚ) * 1000 :=
  ⟨(c2_sip_accumulation 1000 [⟨⟨2020, 2, 10⟩, 10⟩] []).2.2 (3, 5)
      ⟨2020, 1, 1⟩ (by decide),
    (c2_sip_accumulation 1000 [⟨⟨2020, 2, 10⟩, 10⟩]
      (dateRangeMS ⟨2020, 1, 1⟩ ⟨2020, 3, 1⟩)).1⟩

/-! ## Claim C3: CAGR degenerate cases and formula -/

/-- C3 (confirmed): `calculate_cagr` returns 0 when the invested capital is
zero or the elapsed years `(end - start).days / 365.25` are ≤ 0 (in
particular for equal dates); otherwise it returns
`((final / invested) ^ (1 / years) - 1) * 100`. -/
theorem c3_cagr_cases (ti cv : ℝ) (sd ed : Date) :
    (ti = 0 → calculate_cagr ti cv sd ed = 0) ∧
      ((daysBetween sd ed : ℝ) / 365.25 ≤ 0 → calculate_cagr ti cv sd ed = 0) ∧
      (ti ≠ 0 → 0 < (daysBetween sd ed : ℝ) / 365.25 →
        calculate_cagr ti cv sd ed =
          ((cv / ti) ^ ((1 : ℝ) / ((daysBetween sd ed : ℝ) / 365.25)) - 1) * 100) := by
  refine ⟨fun h => ?_, fun h => ?_, fun h1 h2 => ?_⟩
  · rw [calculate_cagr, if_pos h]
  · by_cases hti : ti = 0
    · rw [calculate_cagr, if_pos hti]
    · rw [calculate_cagr, if_neg hti, if_pos h]
  · rw [calculate_cagr, if_neg h1, if_neg (not_le.mpr h2)]

/-- C3, witness: zero invested capital gives 0, and equal start and end dates
give 0 (elapsed years = 0). -/
theorem c3_witness :
    calculate_cagr 0 5000 ⟨2020, 1, 1⟩ ⟨2021, 1, 1⟩ = 0 ∧
      calculate_cagr 7 9 ⟨2020, 3, 4⟩ ⟨2020, 3, 4⟩ = 0 :=
  ⟨(c3_cagr_cases 0 5000 ⟨2020, 1, 1⟩ ⟨2021, 1, 1⟩).1 rfl,
    (c3_cagr_cases 7 9 ⟨2020, 3, 4⟩ ⟨2020, 3, 4⟩).2.1 (by
      rw [show daysBetween ⟨2020, 3, 4⟩ ⟨2020, 3, 4⟩ = 0 from by decide]
      norm_num)⟩

/-! ## Claim C6: lumpsum entry/exit selection -/

theorem pairwise_head_le {l : List NavPoint}
    (hl : l.Pairwise (fun p q => p.date ≤ q.date)) {a : NavPoint}
    (ha : l.head? = some a) : ∀ b ∈ l, a.date ≤ b.date := by
  cases l with
  | nil => cases ha
  | cons x rest =>
    rw [List.head?_cons, Option.some.injEq] at ha
    subst ha
    rw [List.pairwise_cons] at hl
    intro b hb
    rcases List.mem_cons.1 hb with rfl | hb
    · exact Date.le_refl b.date
    · exact hl.1 b hb

theorem pairwise_getLast_le {l : List NavPoint}
    (hl : l.Pairwise (fun p q => p.date ≤ q.date)) {z : NavPoint}
    (hz : l.getLast? = some z) : ∀ b ∈ l, b.date ≤ z.date := by
  induction l with
  | nil => cases hz
  | cons x rest ih =>
    cases rest with
    | nil =>
      rw [List.getLast?_singleton, Option.some.injEq] at hz
      subst hz
      intro b hb
      rcases List.mem_cons.1 hb with rfl | hb
      · exact Date.le_refl b.date
      · cases hb
    | cons y t =>
      rw [List.getLast?_cons_cons] at hz
      rw [List.pairwise_cons] at hl
      intro b hb
      rcases List.mem_cons.1 hb with rfl | hb
      · exact hl.1 z (List.mem_of_mem_getLast? hz)
      · exact ih hl.2 hz b hb

/-- C6 (confirmed): for a chronologically sorted NAV history whose trade
window is non-empty, `calculate_lumpsum_returns` takes the entry NAV/date
from the first row of the trade window (at or after `start_date`, and no
later than any other in-window row) and the exit NAV/date from the last row
(at or before `end_date`, and no earlier than any other in-window row),
computes `units = amount / entry_nav` and `final_value = units * exit_nav`,
and computes the per-fund CAGR from that fund's actual entry and exit
dates. -/
theorem c6_lumpsum_entry_exit (amount : ℚ) (s e : Date)
    (hist : List NavPoint)
    (hsorted : hist.Pairwise (fun p q => p.date ≤ q.date))
    (r : LumpsumRecord) (hr : lumpsumFund amount s e hist = some r) :
    ∃ p0 pN : NavPoint, (tradeWindow s e hist).head? = some p0 ∧
      (tradeWindow s e hist).getLast? = some pN ∧
      s ≤ p0.date ∧ (∀ p ∈ tradeWindow s e hist, p0.date ≤ p.date) ∧
      pN.date ≤ e ∧ (∀ p ∈ tradeWindow s e hist, p.date ≤ pN.date) ∧
      r = ⟨amount, amount / p0.nav, amount / p0.nav * pN.nav,
        p0.nav, pN.nav, p0.date, pN.date⟩ ∧
      lumpsumCagr amount s e hist =
        calculate_cagr (amount : ℝ) (r.final_value : ℝ) p0.date pN.date := by
  have hwin : (tradeWindow s e hist).Pairwise (fun p q => p.date ≤ q.date) :=
    hsorted.filter _
  unfold lumpsumFund at hr
  by_cases hh : hist = []
  · rw [if_pos hh] at hr; cases hr
  · rw [if_neg hh] at hr
    cases hhead : (tradeWindow s e hist).head? with
    | none => rw [hhead] at hr; cases hr
    | some p0 =>
      cases hlast : (tradeWindow s e hist).getLast? with
      | none => rw [hhead, hlast] at hr; cases hr
      | some pN =>
        rw [hhead, hlast] at hr
        simp only [Option.some.injEq] at hr
        refine ⟨p0, pN, rfl, rfl, ?_, pairwise_head_le hwin hhead,
          ?_, pairwise_getLast_le hwin hlast, hr.symm, ?_⟩
        · have hmem : p0 ∈ tradeWindow s e hist :=
            List.mem_of_mem_head? hhead
          unfold tradeWindow at hmem
          rw [List.mem_filter, Bool.and_eq_true] at hmem
          exact hmem.2.1
        · have hmem : pN ∈ tradeWindow s e hist :=
            List.mem_of_mem_getLast? hlast
          unfold tradeWindow at hmem
          rw [List.mem_filter, Bool.and_eq_true] at hmem
          exact hmem.2.2
        · unfold lumpsumCagr lumpsumFund
          rw [if_neg hh, hhead, hlast]
          rw [← hr]

/-- C6, witness: on the sorted two-point series (2021-01-01, 10),
(2022-01-01, 20) with amount 1000, the entry is the first point, the exit
the last, units = 100, final value = 2000, and the CAGR is taken at the
actual entry/exit dates. -/
theorem c6_witness :
    ∃ p0 pN : NavPoint,
      (tradeWindow ⟨2021, 1, 1⟩ ⟨2022, 1, 1⟩
        [⟨⟨2021, 1, 1⟩, 10⟩, ⟨⟨2022, 1, 1⟩, 20⟩]).head? = some p0 ∧
      (tradeWindow ⟨2021, 1, 1⟩ ⟨2022, 1, 1⟩
        [⟨⟨2021, 1, 1⟩, 10⟩, ⟨⟨2022, 1, 1⟩, 20⟩]).getLast? = some pN ∧
      (⟨2021, 1, 1⟩ : Date) ≤ p0.date ∧
      (∀ p ∈ tradeWindow ⟨2021, 1, 1⟩ ⟨2022, 1, 1⟩
        [⟨⟨2021, 1, 1⟩, 10⟩, ⟨⟨2022, 1, 1⟩, 20⟩], p0.date ≤ p.date) ∧
      pN.date ≤ ⟨2022, 1, 1⟩ ∧
      (∀ p ∈ tradeWindow ⟨2021, 1, 1⟩ ⟨2022, 1, 1⟩
        [⟨⟨2021, 1, 1⟩, 10⟩, ⟨⟨2022, 1, 1⟩, 20⟩], p.date ≤ pN.date) ∧
      (⟨1000, 100, 2000, 10, 20, ⟨2021, 1, 1⟩, ⟨2022, 1, 1⟩⟩ :
          LumpsumRecord) =
        ⟨1000, 1000 / p0.nav, 1000 / p0.nav * pN.nav,
          p0.nav, pN.nav, p0.date, pN.date⟩ ∧
      lumpsumCagr 1000 ⟨2021, 1, 1⟩ ⟨2022, 1, 1⟩
          [⟨⟨2021, 1, 1⟩, 10⟩, ⟨⟨2022, 1, 1⟩, 20⟩] =
        calculate_cagr (1000 : ℝ) ((2000 : ℚ) : ℝ) p0.date pN.date :=
  c6_lumpsum_entry_exit 1000 ⟨2021, 1, 1⟩ ⟨2022, 1, 1⟩
    [⟨⟨2021, 1, 1⟩, 10⟩, ⟨⟨2022, 1, 1⟩, 20⟩] (by decide)
    ⟨1000, 100, 2000, 10, 20, ⟨2021, 1, 1⟩, ⟨2022, 1, 1⟩⟩ (by
      have ht : tradeWindow ⟨2021, 1, 1⟩ ⟨2022, 1, 1⟩
          [⟨⟨2021, 1, 1⟩, 10⟩, ⟨⟨2022, 1, 1⟩, 20⟩] =
          [⟨⟨2021, 1, 1⟩, 10⟩, ⟨⟨2022, 1, 1⟩, 20⟩] := by decide
      rw [lumpsumFund, if_neg (by decide), ht]
      norm_num)

/-! ## Claim C8: skipped funds and portfolio aggregation -/

/-- The per-fund results the `app.py` handler produces (specification-side
characterization of the fund loop). -/
def producedResults (amount : ℚ) (s e : Date) (dates : List Date)
    (funds : List (String × List NavPoint)) :
    List (String × AppFundResult) :=
  funds.filterMap (fun f =>
    match appSipFund amount s e dates f.2 with
    | .ok (some r) => some (f.1, r)
    | _ => none)

theorem analyzeStep_skip (amount : ℚ) (s e : Date) (dates : List Date)
    (acc : List (String × AppFundResult) × ℚ × Option ℚ)
    (f : String × List NavPoint)
    (happ : appSipFund amount s e dates f.2 = .ok none) :
    analyzeStep amount s e dates (.ok acc) f = .ok acc := by
  obtain ⟨results, totI, totF⟩ := acc
  unfold analyzeStep
  rw [happ]

theorem analyzeStep_produced (amount : ℚ) (s e : Date) (dates : List Date)
    (results : List (String × AppFundResult)) (totI : ℚ) (totF : Option ℚ)
    (f : String × List NavPoint) (r : AppFundResult)
    (happ : appSipFund amount s e dates f.2 = .ok (some r)) :
    analyzeStep amount s e dates (.ok (results, totI, totF)) f =
      .ok (results ++ [(f.1, r)], totI + r.total_invested,
        nanAdd totF r.final_value) := by
  unfold analyzeStep
  rw [happ]

theorem producedResults_cons_skip (amount : ℚ) (s e : Date)
    (dates : List Date) (f : String × List NavPoint)
    (funds : List (String × List NavPoint))
    (happ : appSipFund amount s e dates f.2 = .ok none) :
    producedResults amount s e dates (f :: funds) =
      producedResults amount s e dates funds := by
  unfold producedResults
  rw [List.filterMap_cons, happ]

theorem producedResults_cons_produced (amount : ℚ) (s e : Date)
    (dates : List Date) (f : String × List NavPoint)
    (funds : List (String × List NavPoint)) (r : AppFundResult)
    (happ : appSipFund amount s e dates f.2 = .ok (some r)) :
    producedResults amount s e dates (f :: funds) =
      (f.1, r) :: producedResults amount s e dates funds := by
  unfold producedResults
  rw [List.filterMap_cons, happ]

theorem analyze_foldl (amount : ℚ) (s e : Date) (dates : List Date)
    (funds : List (String × List NavPoint)) :
    ∀ (results : List (String × AppFundResult)) (totI : ℚ) (totF : Option ℚ),
      (∀ f ∈ funds, appSipFund amount s e dates f.2 ≠ .error ()) →
      funds.foldl (analyzeStep amount s e dates) (.ok (results, totI, totF)) =
        .ok (results ++ producedResults amount s e dates funds,
          totI + ((producedResults amount s e dates funds).map
            (fun pr => pr.2.total_invested)).sum,
          (producedResults amount s e dates funds).foldl
            (fun a pr => nanAdd a pr.2.final_value) totF) := by
  induction funds with
  | nil => intro results totI totF _; simp [producedResults]
  | cons f funds ih =>
    intro results totI totF hok
    rw [List.foldl_cons]
    have hok' : ∀ g ∈ funds, appSipFund amount s e dates g.2 ≠ .error () :=
      fun g hg => hok g (List.mem_cons_of_mem f hg)
    cases happ : appSipFund amount s e dates f.2 with
    | error u =>
      cases u
      exact absurd happ (hok f (List.mem_cons_self f funds))
    | ok res =>
      cases res with
      | none =>
        rw [analyzeStep_skip amount s e dates _ f happ,
          producedResults_cons_skip amount s e dates f funds happ]
        exact ih results totI totF hok'
      | some r =>
        rw [analyzeStep_produced amount s e dates results totI totF f r happ,
          ih (results ++ [(f.1, r)]) (totI + r.total_invested)
            (nanAdd totF r.final_value) hok',
          producedResults_cons_produced amount s e dates f funds r happ]
        simp only [List.map_cons, List.sum_cons, List.foldl_cons,
          List.append_assoc, List.singleton_append, Except.ok.injEq,
          Prod.mk.injEq]
        refine ⟨by trivial, by ring, by trivial⟩

theorem lumpsumStep_skip (amount : ℚ) (s e : Date)
    (acc : List (String × LumpsumRecord) × ℚ × ℚ)
    (f : String × List NavPoint) (hf : lumpsumFund amount s e f.2 = none) :
    lumpsumStep amount s e acc f = acc := by
  unfold lumpsumStep
  rw [hf]

theorem lumpsumStep_produced (amount : ℚ) (s e : Date)
    (acc : List (String × LumpsumRecord) × ℚ × ℚ)
    (f : String × List NavPoint) (r : LumpsumRecord)
    (hf : lumpsumFund amount s e f.2 = some r) :
    lumpsumStep amount s e acc f =
      (acc.1 ++ [(f.1, r)], acc.2.1 + r.total_invested,
        acc.2.2 + r.final_value) := by
  unfold lumpsumStep
  rw [hf]

theorem lumpsum_foldl (amount : ℚ) (s e : Date)
    (funds : List (String × List NavPoint)) :
    ∀ (res : List (String × LumpsumRecord)) (totI totF : ℚ),
      funds.foldl (lumpsumStep amount s e) (res, totI, totF) =
      (res ++ funds.filterMap (fun f =>
          (lumpsumFund amount s e f.2).map (fun r => (f.1, r))),
        totI + (funds.filterMap (fun f =>
          (lumpsumFund amount s e f.2).map (fun r => (f.1, r)))).foldr
            (fun pr q => pr.2.total_invested + q) 0,
        totF + (funds.filterMap (fun f =>
          (lumpsumFund amount s e f.2).map (fun r => (f.1, r)))).foldr
            (fun pr q => pr.2.final_value + q) 0) := by
  induction funds with
  | nil => intro res totI totF; simp
  | cons f funds ih =>
    intro res totI totF
    rw [List.foldl_cons, List.filterMap_cons]
    cases hf : lumpsumFund amount s e f.2 with
    | none =>
      rw [lumpsumStep_skip amount s e _ f hf, ih]
      rfl
    | some r =>
      rw [lumpsumStep_produced amount s e _ f r hf, ih]
      simp only [Option.map_some', List.foldr_cons, List.append_assoc,
        List.singleton_append, Prod.mk.injEq]
      refine ⟨by trivial, by ring, by ring⟩

/-- C8 (confirmed): a fund with no NAV data, or no data inside the query
window, yields no result and leaves the portfolio totals untouched; the
handler's totals equal the sums over exactly the funds that produced a
result (both in the `app.py` SIP handler and in
`calculate_lumpsum_returns`); and when zero funds produce a result the
handler reports failure instead of a zero-valued portfolio. -/
theorem c8_portfolio_aggregation (funds : List (String × List NavPoint))
    (s e : Date) (amount : ℚ)
    (hok : ∀ f ∈ funds,
      appSipFund amount s e (dateRangeMS s e) f.2 ≠ .error ()) :
    (∀ hist : List NavPoint, (hist = [] ∨ tradeWindow s e hist = []) →
      appSipFund amount s e (dateRangeMS s e) hist = .ok none) ∧
    analyzeReturns funds s e amount =
      .ok (if producedResults amount s e (dateRangeMS s e) funds = []
        then .failure
        else .success (producedResults amount s e (dateRangeMS s e) funds)
          ((producedResults amount s e (dateRangeMS s e) funds).map
            (fun pr => pr.2.total_invested)).sum
          ((producedResults amount s e (dateRangeMS s e) funds).foldl
            (fun a pr => nanAdd a pr.2.final_value) (some 0))) ∧
    (lumpsumReturns funds s e amount).2.1 =
      ((lumpsumReturns funds s e amount).1.map
        (fun pr => pr.2.total_invested)).sum ∧
    (lumpsumReturns funds s e amount).2.2 =
      ((lumpsumReturns funds s e amount).1.map
        (fun pr => pr.2.final_value)).sum := by
  refine ⟨?_, ?_, ?_, ?_⟩
  · intro hist h
    rcases h with h | h
    · subst h; rfl
    · by_cases hh : hist = []
      · subst hh; rfl
      · simp [appSipFund, hh, h]
  · unfold analyzeReturns
    rw [analyze_foldl amount s e (dateRangeMS s e) funds [] 0 (some 0) hok]
    simp only [List.nil_append, zero_add]
    by_cases hp : producedResults amount s e (dateRangeMS s e) funds = []
    · rw [if_pos hp, if_pos hp]
    · rw [if_neg hp, if_neg hp]
  · unfold lumpsumReturns
    rw [lumpsum_foldl amount s e funds [] 0 0]
    simp only [List.nil_append, zero_add]
    induction (funds.filterMap (fun f =>
      (lumpsumFund amount s e f.2).map (fun r => (f.1, r)))) with
    | nil => simp
    | cons pr l ih => simp only [List.foldr_cons, List.map_cons,
        List.sum_cons, ih]
  · unfold lumpsumReturns
    rw [lumpsum_foldl amount s e funds [] 0 0]
    simp only [List.nil_append, zero_add]
    induction (funds.filterMap (fun f =>
      (lumpsumFund amount s e f.2).map (fun r => (f.1, r)))) with
    | nil => simp
    | cons pr l ih => simp only [List.foldr_cons, List.map_cons,
        List.sum_cons, ih]

/-- C8, witness: with one fund having an empty series and one valid fund
(invested 5000, final value 6000), the totals equal the valid fund's figures
alone; with only the empty fund, the handler reports failure. -/
theorem c8_witness :
    analyzeReturns [("empty", []),
        ("ok", [⟨⟨2021, 1, 1⟩, 10⟩, ⟨⟨2021, 1, 20⟩, 12⟩])]
      ⟨2021, 1, 1⟩ ⟨2021, 1, 25⟩ 5000 =
      .ok (.success
        [("ok", ⟨5000, some 500, some 6000⟩)] 5000 (some 6000)) ∧
    analyzeReturns [("empty", [])] ⟨2021, 1, 1⟩ ⟨2021, 1, 25⟩ 5000 =
      .ok .failure := by
  have hdates : dateRangeMS ⟨2021, 1, 1⟩ ⟨2021, 1, 25⟩ = [⟨2021, 1, 1⟩] := by
    decide
  have hemp : appSipFund 5000 ⟨2021, 1, 1⟩ ⟨2021, 1, 25⟩
      (dateRangeMS ⟨2021, 1, 1⟩ ⟨2021, 1, 25⟩) [] = .ok none := rfl
  have hok2 : appSipFund 5000 ⟨2021, 1, 1⟩ ⟨2021, 1, 25⟩
      (dateRangeMS ⟨2021, 1, 1⟩ ⟨2021, 1, 25⟩)
      [⟨⟨2021, 1, 1⟩, 10⟩, ⟨⟨2021, 1, 20⟩, 12⟩] =
      .ok (some ⟨5000, some 500, some 6000⟩) := by
    have ht : tradeWindow ⟨2021, 1, 1⟩ ⟨2021, 1, 25⟩
        [⟨⟨2021, 1, 1⟩, 10⟩, ⟨⟨2021, 1, 20⟩, 12⟩] =
        [⟨⟨2021, 1, 1⟩, 10⟩, ⟨⟨2021, 1, 20⟩, 12⟩] := by decide
    have h1 : asof [⟨⟨2021, 1, 1⟩, 10⟩, ⟨⟨2021, 1, 20⟩, 12⟩] ⟨2021, 1, 1⟩ =
        some 10 := by decide
    rw [appSipFund, if_neg (by decide), ht, hdates]
    norm_num [appSipAccumulate, appSipStep, h1, nanMul, List.cons_ne_nil]
  have h1 := (c8_portfolio_aggregation [("empty", []),
    ("ok", [⟨⟨2021, 1, 1⟩, 10⟩, ⟨⟨2021, 1, 20⟩, 12⟩])]
    ⟨2021, 1, 1⟩ ⟨2021, 1, 25⟩ 5000 (by
      intro f hf
      rcases List.mem_cons.1 hf with rfl | hf
      · rw [hemp]; exact fun h => by cases h
      · rcases List.mem_cons.1 hf with rfl | hf
        · rw [hok2]; exact fun h => by cases h
        · cases hf)).2.1
  have h2 := (c8_portfolio_aggregation [("empty", [])]
    ⟨2021, 1, 1⟩ ⟨2021, 1, 25⟩ 5000 (by
      intro f hf
      rcases List.mem_cons.1 hf with rfl | hf
      · rw [hemp]; exact fun h => by cases h
      · cases hf)).2.1
  rw [h1, h2]
  rw [producedResults_cons_skip _ _ _ _ _ _ hemp,
    producedResults_cons_produced _ _ _ _ _ _ _ hok2,
    producedResults_cons_skip _ _ _ _ _ _ hemp]
  norm_num [producedResults, nanAdd]

/-! ## Claim C10: the `app.py` loop versus `calculate_sip_returns` -/

/-- C10 (refuted by evaluation; the claim is the spec's intent and the
`app.py` loop is the slip): on the series with a single point
(2020-02-10, 10) over the window 2020-01-01 .. 2020-03-01 with monthly
amount 1000, `calculate_sip_returns` skips the two unmatched investment
dates (invested 1000, units 100, final value 1000), while the `app.py`
inline loop counts all three dates into `total_invested` (3000) and
propagates `NaN` units and final value — the two computations do not
agree. -/
theorem c10_divergence :
    calcSipFund 1000 ⟨2020, 1, 1⟩ ⟨2020, 3, 1⟩ [⟨⟨2020, 2, 10⟩, 10⟩] =
      some ⟨1000, 100, 1000⟩ ∧
    appSipFund 1000 ⟨2020, 1, 1⟩ ⟨2020, 3, 1⟩
        (dateRangeMS ⟨2020, 1, 1⟩ ⟨2020, 3, 1⟩) [⟨⟨2020, 2, 10⟩, 10⟩] =
      .ok (some ⟨3000, none, none⟩) := by
  have hd : dateRangeMS ⟨2020, 1, 1⟩ ⟨2020, 3, 1⟩ =
      [⟨2020, 1, 1⟩, ⟨2020, 2, 1⟩, ⟨2020, 3, 1⟩] := by decide
  have ht : tradeWindow ⟨2020, 1, 1⟩ ⟨2020, 3, 1⟩ [⟨⟨2020, 2, 10⟩, 10⟩] =
      [⟨⟨2020, 2, 10⟩, 10⟩] := by decide
  have h1 : asof [⟨⟨2020, 2, 10⟩, 10⟩] ⟨2020, 1, 1⟩ = none := by decide
  have h2 : asof [⟨⟨2020, 2, 10⟩, 10⟩] ⟨2020, 2, 1⟩ = none := by decide
  have h3 : asof [⟨⟨2020, 2, 10⟩, 10⟩] ⟨2020, 3, 1⟩ = some 10 := by decide
  constructor
  · rw [calcSipFund, if_neg (by decide), ht, hd]
    norm_num [sipAccumulate, sipStep, h1, h2, h3]
  · rw [appSipFund, if_neg (by decide), ht, hd]
    norm_num [appSipAccumulate, appSipStep, h1, h2, h3, nanMul]

/-! ## XIRR helper lemmas -/

theorem exceptBind_ok {α β : Type} (a : α) (f : α → Except Unit β) :
    (Except.ok a >>= f) = f a := rfl

theorem safePow_ok {b : ℝ} (hb : 0 < b) (ex : ℝ) :
    safePow b ex = .ok (b ^ ex) := by
  unfold safePow
  rw [if_neg (by rintro ⟨h1, h2⟩; exact absurd h1 (ne_of_gt hb)),
    if_neg (not_lt.mpr hb.le)]

theorem safeDiv_ok (a : ℝ) {b : ℝ} (hb : b ≠ 0) :
    safeDiv a b = .ok (a / b) := by
  unfold safeDiv
  rw [if_neg hb]

theorem sumTermsE_ok {rate : ℝ} (h : -1 < rate) (origin : Date)
    (l : List Cashflow) :
    sumTermsE rate origin l = .ok ((l.map (fun cf =>
      cf.value / (1 + rate) ^ ((daysBetween origin cf.date : ℝ) / 365))).sum) := by
  induction l with
  | nil => rfl
  | cons cf rest ih =>
    have hb : (0 : ℝ) < 1 + rate := by linarith
    have hp : (0 : ℝ) <
        (1 + rate) ^ ((daysBetween origin cf.date : ℝ) / 365) :=
      Real.rpow_pos_of_pos hb _
    simp only [sumTermsE, safePow_ok hb, safeDiv_ok _ hp.ne', ih,
      exceptBind_ok, List.map_cons, List.sum_cons]

theorem xirr_funcE_ok {rate : ℝ} (h : -1 < rate)
    (cashflows : List Cashflow) :
    xirr_funcE rate cashflows = .ok (xirr_func rate cashflows) := by
  cases cashflows with
  | nil => rfl
  | cons c0 rest => exact sumTermsE_ok h c0.date (c0 :: rest)

theorem bisectLoopE_ok (cashflows : List Cashflow) (tol : ℝ) :
    ∀ (n : ℕ) (low high f_low lastMid : ℝ), -1 < low → -1 < high →
      ∃ v, bisectLoopE cashflows tol n low high f_low lastMid = .ok v := by
  intro n
  induction n with
  | zero => exact fun low high fl lm _ _ => ⟨lm * 100, rfl⟩
  | succ n ih =>
    intro low high fl lm hlow hhigh
    have hmid : (-1 : ℝ) < (low + high) / 2 := by linarith
    rw [bisectLoopE]
    by_cases hw : |high - low| < tol
    · rw [if_pos hw]
      exact ⟨_, rfl⟩
    · rw [if_neg hw]
      simp only [xirr_funcE_ok hmid cashflows, exceptBind_ok]
      by_cases hs : npSign (xirr_func ((low + high) / 2) cashflows) =
          npSign fl
      · rw [if_pos hs]
        exact ih _ _ _ _ hmid hhigh
      · rw [if_neg hs]
        exact ih _ _ _ _ hlow hmid

theorem xirrTry_ok (cashflows : List Cashflow) (max_iter : ℕ) (tol : ℝ) :
    ∃ v, xirrTry cashflows max_iter tol = .ok v := by
  unfold xirrTry
  simp only [xirr_funcE_ok (by norm_num : (-1 : ℝ) < -0.99) cashflows,
    xirr_funcE_ok (by norm_num : (-1 : ℝ) < 5) cashflows, exceptBind_ok]
  by_cases hp : xirr_func (-0.99) cashflows * xirr_func 5 cashflows > 0
  · rw [if_pos hp]
    exact ⟨0, rfl⟩
  · rw [if_neg hp]
    exact bisectLoopE_ok cashflows tol max_iter _ _ _ _ (by norm_num)
      (by norm_num)

/-! ## Claim C5: the solver is total -/

/-- C5 (confirmed): `calculate_xirr` never raises to its caller: at the
default iteration cap and tolerance, the solver body always produces a value
(in exact arithmetic the checked operations cannot fail: every evaluated
rate stays inside the bracket, where the base `1 + rate` is positive), the
`except` clause maps any signalled failure to `0.0`, and `calculate_xirr`
returns the body's value (or `0` under the length guard). -/
theorem c5_xirr_total (cashflows : List Cashflow) (guess : ℝ) :
    ∃ v, xirrTry cashflows 100 (1e-6) = .ok v ∧
      calculate_xirr cashflows guess 100 (1e-6) =
        if cashflows.length < 2 then 0 else v := by
  obtain ⟨v, hv⟩ := xirrTry_ok cashflows 100 (1e-6)
  refine ⟨v, hv, ?_⟩
  unfold calculate_xirr
  by_cases hl : cashflows.length < 2
  · rw [if_pos hl, if_pos hl]
  · rw [if_neg hl, if_neg hl, hv]

/-! ## Claim C4: degenerate inputs and the no-root fallback -/

theorem xirr_func_pos {rate : ℝ} (h : -1 < rate)
    {cashflows : List Cashflow} (hne : cashflows ≠ [])
    (hpos : ∀ cf ∈ cashflows, 0 < cf.value) :
    0 < xirr_func rate cashflows := by
  cases cashflows with
  | nil => exact absurd rfl hne
  | cons c0 rest =>
    rw [xirr_func]
    apply List.sum_pos
    · intro x hx
      rw [List.mem_map] at hx
      obtain ⟨cf, hcf, rfl⟩ := hx
      exact div_pos (hpos cf hcf)
        (Real.rpow_pos_of_pos (by linarith) _)
    · simp

theorem list_sum_neg {l : List ℝ} (h : ∀ x ∈ l, x < 0) (hne : l ≠ []) :
    l.sum < 0 := by
  induction l with
  | nil => exact absurd rfl hne
  | cons x xs ih =>
    rw [List.sum_cons]
    cases xs with
    | nil => simpa using h x (by simp)
    | cons y ys =>
      have hx := h x (by simp)
      have hrest : (y :: ys).sum < 0 :=
        ih (fun z hz => h z (List.mem_cons_of_mem x hz)) (by simp)
      linarith

theorem xirr_func_neg {rate : ℝ} (h : -1 < rate)
    {cashflows : List Cashflow} (hne : cashflows ≠ [])
    (hneg : ∀ cf ∈ cashflows, cf.value < 0) :
    xirr_func rate cashflows < 0 := by
  cases cashflows with
  | nil => exact absurd rfl hne
  | cons c0 rest =>
    rw [xirr_func]
    apply list_sum_neg
    · intro x hx
      rw [List.mem_map] at hx
      obtain ⟨cf, hcf, rfl⟩ := hx
      exact div_neg_of_neg_of_pos (hneg cf hcf)
        (Real.rpow_pos_of_pos (by linarith) _)
    · simp

/-- C4 (confirmed): `calculate_xirr` returns `0.0` for every cashflow list
with fewer than 2 entries, and returns `0.0` without bisecting whenever the
objective takes non-differing signs at the bracket ends `-0.99` and `5.0`
(`f_low * f_high > 0`); in particular for all-positive or all-negative
cashflow values. -/
theorem c4_xirr_fallbacks (cashflows : List Cashflow) (guess : ℝ)
    (max_iter : ℕ) (tol : ℝ)
    (h : cashflows.length < 2 ∨
      0 < xirr_func (-0.99) cashflows * xirr_func 5 cashflows ∨
      (cashflows ≠ [] ∧ ∀ cf ∈ cashflows, 0 < cf.value) ∨
      (cashflows ≠ [] ∧ ∀ cf ∈ cashflows, cf.value < 0)) :
    calculate_xirr cashflows guess max_iter tol = 0 := by
  have key : 0 < xirr_func (-0.99) cashflows * xirr_func 5 cashflows →
      calculate_xirr cashflows guess max_iter tol = 0 := by
    intro hp
    unfold calculate_xirr
    by_cases hl : cashflows.length < 2
    · rw [if_pos hl]
    · rw [if_neg hl]
      unfold xirrTry
      simp only [xirr_funcE_ok (by norm_num : (-1 : ℝ) < -0.99) cashflows,
        xirr_funcE_ok (by norm_num : (-1 : ℝ) < 5) cashflows, exceptBind_ok]
      rw [if_pos hp]
  rcases h with hl | hp | ⟨hne, hpos⟩ | ⟨hne, hneg⟩
  · unfold calculate_xirr
    rw [if_pos hl]
  · exact key hp
  · exact key (mul_pos (xirr_func_pos (by norm_num) hne hpos)
      (xirr_func_pos (by norm_num) hne hpos))
  · exact key (mul_pos_of_neg_of_neg (xirr_func_neg (by norm_num) hne hneg)
      (xirr_func_neg (by norm_num) hne hneg))

/-- C4, witness: a list of two all-positive cashflows yields `0.0`. -/
theorem c4_witness :
    calculate_xirr [⟨⟨2020, 1, 1⟩, 5⟩, ⟨⟨2020, 6, 1⟩, 7⟩] 0.1 100 (1e-6) =
      0 :=
  c4_xirr_fallbacks [⟨⟨2020, 1, 1⟩, 5⟩, ⟨⟨2020, 6, 1⟩, 7⟩] 0.1 100 (1e-6)
    (Or.inr (Or.inr (Or.inl ⟨by simp, by
      intro cf hcf
      rcases List.mem_cons.1 hcf with rfl | hcf
      · norm_num
      · rcases List.mem_cons.1 hcf with rfl | hcf
        · norm_num
        · cases hcf⟩)))

/-! ## Claim C9: the guess parameter is never read -/

/-- C9 (confirmed): `calculate_xirr` is independent of its `guess` argument —
the bisection implementation never reads it, so any two guesses give
syntactically the same computation. -/
theorem c9_guess_independent (cashflows : List Cashflow) (g1 g2 : ℝ)
    (max_iter : ℕ) (tol : ℝ) :
    calculate_xirr cashflows g1 max_iter tol =
      calculate_xirr cashflows g2 max_iter tol := rfl


/-! ## Claim C7: the XIRR round-trip test -/

/-- The synthetic lumpsum-equivalent cashflow list of the specification's
round-trip test: -1000 on 2020-01-01, +1100 on 2021-01-01. -/
noncomputable def testCashflows : List Cashflow :=
  [⟨⟨2020, 1, 1⟩, -1000⟩, ⟨⟨2021, 1, 1⟩, 1100⟩]

theorem testDays_same : daysBetween ⟨2020, 1, 1⟩ ⟨2020, 1, 1⟩ = 0 := by decide

theorem testDays_year : daysBetween ⟨2020, 1, 1⟩ ⟨2021, 1, 1⟩ = 366 := by
  decide

theorem xirr_func_test (r : ℝ) :
    xirr_func r testCashflows =
      -1000 + 1100 / (1 + r) ^ ((366 : ℝ) / 365) := by
  simp only [testCashflows, xirr_func, List.map_cons, List.map_nil,
    List.sum_cons, List.sum_nil, testDays_same, testDays_year]
  push_cast
  rw [zero_div, Real.rpow_zero]
  ring

theorem xirr_func_test_pos {q : ℝ} (hq : -1 < q)
    (h : (1 + q) ^ (366 : ℕ) < (11 / 10 : ℝ) ^ (365 : ℕ)) :
    0 < xirr_func q testCashflows := by
  have hb : (0 : ℝ) < 1 + q := by
    have h2 := add_lt_add_left hq 1
    simpa using h2
  have ha : (0 : ℝ) < (1 + q) ^ ((366 : ℝ) / 365) :=
    Real.rpow_pos_of_pos hb _
  have h365 : ((1 + q) ^ ((366 : ℝ) / 365)) ^ (365 : ℕ) =
      (1 + q) ^ (366 : ℕ) := by
    rw [← Real.rpow_natCast ((1 + q) ^ ((366 : ℝ) / 365)) 365,
      ← Real.rpow_mul hb.le,
      show (366 : ℝ) / 365 * ((365 : ℕ) : ℝ) = ((366 : ℕ) : ℝ) from by
        push_cast; ring,
      Real.rpow_natCast]
  have key : (1 + q) ^ ((366 : ℝ) / 365) < 11 / 10 := by
    refine lt_of_pow_lt_pow_left₀ 365 (by norm_num) ?_
    rw [h365]
    exact h
  clear h h365
  rw [xirr_func_test]
  have h1000 : (1000 : ℝ) < 1100 / (1 + q) ^ ((366 : ℝ) / 365) := by
    rw [lt_div_iff₀ ha]
    linarith
  linarith

theorem xirr_func_test_neg {q : ℝ} (hq : -1 < q)
    (h : (11 / 10 : ℝ) ^ (365 : ℕ) < (1 + q) ^ (366 : ℕ)) :
    xirr_func q testCashflows < 0 := by
  have hb : (0 : ℝ) < 1 + q := by
    have h2 := add_lt_add_left hq 1
    simpa using h2
  have ha : (0 : ℝ) < (1 + q) ^ ((366 : ℝ) / 365) :=
    Real.rpow_pos_of_pos hb _
  have h365 : ((1 + q) ^ ((366 : ℝ) / 365)) ^ (365 : ℕ) =
      (1 + q) ^ (366 : ℕ) := by
    rw [← Real.rpow_natCast ((1 + q) ^ ((366 : ℝ) / 365)) 365,
      ← Real.rpow_mul hb.le,
      show (366 : ℝ) / 365 * ((365 : ℕ) : ℝ) = ((366 : ℕ) : ℝ) from by
        push_cast; ring,
      Real.rpow_natCast]
  have key : (11 : ℝ) / 10 < (1 + q) ^ ((366 : ℝ) / 365) := by
    refine lt_of_pow_lt_pow_left₀ 365 ha.le ?_
    rw [h365]
    exact h
  clear h h365
  rw [xirr_func_test]
  have h1000 : 1100 / (1 + q) ^ ((366 : ℝ) / 365) < (1000 : ℝ) := by
    rw [div_lt_iff₀ ha]
    linarith
  linarith

theorem npSign_pos {x : ℝ} (h : 0 < x) : npSign x = 1 := by
  unfold npSign
  rw [if_neg (not_lt.mpr h.le), if_neg (ne_of_gt h)]

theorem npSign_neg {x : ℝ} (h : x < 0) : npSign x = -1 := by
  unfold npSign
  rw [if_pos h]

theorem bisect_stop (cashflows : List Cashflow) (tol : ℝ) (n : ℕ)
    (low high f_low lastMid mid : ℝ) (hmid : (low + high) / 2 = mid)
    (hw : |high - low| < tol) :
    bisectLoopE cashflows tol (n + 1) low high f_low lastMid =
      .ok (mid * 100) := by
  rw [bisectLoopE, if_pos hw, hmid]

theorem bisect_same (cashflows : List Cashflow) (tol : ℝ) (n : ℕ)
    (low high f_low lastMid mid : ℝ) (hmid : (low + high) / 2 = mid)
    (hw : ¬ |high - low| < tol)
    (hs : npSign (xirr_func mid cashflows) = npSign f_low)
    (hrm : -1 < mid) :
    bisectLoopE cashflows tol (n + 1) low high f_low lastMid =
      bisectLoopE cashflows tol n mid high (xirr_func mid cashflows) mid := by
  rw [bisectLoopE, if_neg hw, hmid]
  simp only [xirr_funcE_ok hrm cashflows, exceptBind_ok]
  rw [if_pos hs]

theorem bisect_diff (cashflows : List Cashflow) (tol : ℝ) (n : ℕ)
    (low high f_low lastMid mid : ℝ) (hmid : (low + high) / 2 = mid)
    (hw : ¬ |high - low| < tol)
    (hs : npSign (xirr_func mid cashflows) ≠ npSign f_low)
    (hrm : -1 < mid) :
    bisectLoopE cashflows tol (n + 1) low high f_low lastMid =
      bisectLoopE cashflows tol n low mid f_low mid := by
  rw [bisectLoopE, if_neg hw, hmid]
  simp only [xirr_funcE_ok hrm cashflows, exceptBind_ok]
  rw [if_neg hs]

set_option maxHeartbeats 4000000 in
/-- The exact value the bisection solver returns on the synthetic
round-trip cashflow list: the bracket [-0.99, 5] is halved 23 times
until its width drops below 1e-6, and the midpoint times 100 is
returned: 16729166900/1677721600 = 9.971361 percent. -/
theorem xirr_roundtrip_value :
    calculate_xirr testCashflows 0.1 100 (1e-6) =
      167291669 / 16777216 := by
  have hpos0 : 0 < xirr_func (-0.99) testCashflows :=
    xirr_func_test_pos (by norm_num) (by norm_num)
  have hneg5 : xirr_func 5 testCashflows < 0 :=
    xirr_func_test_neg (by norm_num) (by norm_num)
  have hn1 : xirr_func ((401 / 200) : ℝ) testCashflows < 0 :=
    xirr_func_test_neg (by norm_num) (by norm_num)
  have hn2 : xirr_func ((203 / 400) : ℝ) testCashflows < 0 :=
    xirr_func_test_neg (by norm_num) (by norm_num)
  have hp3 : 0 < xirr_func ((-193 / 800) : ℝ) testCashflows :=
    xirr_func_test_pos (by norm_num) (by norm_num)
  have hn4 : xirr_func ((213 / 1600) : ℝ) testCashflows < 0 :=
    xirr_func_test_neg (by norm_num) (by norm_num)
  have hp5 : 0 < xirr_func ((-173 / 3200) : ℝ) testCashflows :=
    xirr_func_test_pos (by norm_num) (by norm_num)
  have hp6 : 0 < xirr_func ((253 / 6400) : ℝ) testCashflows :=
    xirr_func_test_pos (by norm_num) (by norm_num)
  have hp7 : 0 < xirr_func ((221 / 2560) : ℝ) testCashflows :=
    xirr_func_test_pos (by norm_num) (by norm_num)
  have hn8 : xirr_func ((2809 / 25600) : ℝ) testCashflows < 0 :=
    xirr_func_test_neg (by norm_num) (by norm_num)
  have hp9 : 0 < xirr_func ((5019 / 51200) : ℝ) testCashflows :=
    xirr_func_test_pos (by norm_num) (by norm_num)
  have hn10 : xirr_func ((10637 / 102400) : ℝ) testCashflows < 0 :=
    xirr_func_test_neg (by norm_num) (by norm_num)
  have hn11 : xirr_func ((827 / 8192) : ℝ) testCashflows < 0 :=
    xirr_func_test_neg (by norm_num) (by norm_num)
  have hp12 : 0 < xirr_func ((40751 / 409600) : ℝ) testCashflows :=
    xirr_func_test_pos (by norm_num) (by norm_num)
  have hn13 : xirr_func ((82101 / 819200) : ℝ) testCashflows < 0 :=
    xirr_func_test_neg (by norm_num) (by norm_num)
  have hn14 : xirr_func ((163603 / 1638400) : ℝ) testCashflows < 0 :=
    xirr_func_test_neg (by norm_num) (by norm_num)
  have hp15 : 0 < xirr_func ((326607 / 3276800) : ℝ) testCashflows :=
    xirr_func_test_pos (by norm_num) (by norm_num)
  have hn16 : xirr_func ((653813 / 6553600) : ℝ) testCashflows < 0 :=
    xirr_func_test_neg (by norm_num) (by norm_num)
  have hn17 : xirr_func ((1307027 / 13107200) : ℝ) testCashflows < 0 :=
    xirr_func_test_neg (by norm_num) (by norm_num)
  have hp18 : 0 < xirr_func ((522691 / 5242880) : ℝ) testCashflows :=
    xirr_func_test_pos (by norm_num) (by norm_num)
  have hp19 : 0 < xirr_func ((5227509 / 52428800) : ℝ) testCashflows :=
    xirr_func_test_pos (by norm_num) (by norm_num)
  have hp20 : 0 < xirr_func ((10455617 / 104857600) : ℝ) testCashflows :=
    xirr_func_test_pos (by norm_num) (by norm_num)
  have hn21 : xirr_func ((20911833 / 209715200) : ℝ) testCashflows < 0 :=
    xirr_func_test_neg (by norm_num) (by norm_num)
  have hn22 : xirr_func ((41823067 / 419430400) : ℝ) testCashflows < 0 :=
    xirr_func_test_neg (by norm_num) (by norm_num)
  have hp23 : 0 < xirr_func ((16729107 / 167772160) : ℝ) testCashflows :=
    xirr_func_test_pos (by norm_num) (by norm_num)
  have hloop : bisectLoopE testCashflows (1e-6) 100 (-0.99) 5
      (xirr_func (-0.99) testCashflows) 0 =
      .ok ((167291669 / 1677721600 : ℝ) * 100) := by
    rw [bisect_diff testCashflows (1e-6) 99 (-0.99) 5
      (xirr_func (-0.99) testCashflows) 0 (401 / 200) (by norm_num)
      (by rw [abs_sub_lt_iff]; norm_num)
      (by rw [npSign_neg hn1, npSign_pos hpos0]; norm_num) (by norm_num)]
    rw [bisect_diff testCashflows (1e-6) 98 (-0.99) (401 / 200)
      (xirr_func (-0.99) testCashflows) (401 / 200) (203 / 400) (by norm_num)
      (by rw [abs_sub_lt_iff]; norm_num)
      (by rw [npSign_neg hn2, npSign_pos hpos0]; norm_num) (by norm_num)]
    rw [bisect_same testCashflows (1e-6) 97 (-0.99) (203 / 400)
      (xirr_func (-0.99) testCashflows) (203 / 400) (-193 / 800) (by norm_num)
      (by rw [abs_sub_lt_iff]; norm_num)
      (by rw [npSign_pos hp3, npSign_pos hpos0]) (by norm_num)]
    rw [bisect_diff testCashflows (1e-6) 96 (-193 / 800) (203 / 400)
      (xirr_func (-193 / 800) testCashflows) (-193 / 800) (213 / 1600) (by norm_num)
      (by rw [abs_sub_lt_iff]; norm_num)
      (by rw [npSign_neg hn4, npSign_pos hp3]; norm_num) (by norm_num)]
    rw [bisect_same testCashflows (1e-6) 95 (-193 / 800) (213 / 1600)
      (xirr_func (-193 / 800) testCashflows) (213 / 1600) (-173 / 3200) (by norm_num)
      (by rw [abs_sub_lt_iff]; norm_num)
      (by rw [npSign_pos hp5, npSign_pos hp3]) (by norm_num)]
    rw [bisect_same testCashflows (1e-6) 94 (-173 / 3200) (213 / 1600)
      (xirr_func (-173 / 3200) testCashflows) (-173 / 3200) (253 / 6400) (by norm_num)
      (by rw [abs_sub_lt_iff]; norm_num)
      (by rw [npSign_pos hp6, npSign_pos hp5]) (by norm_num)]
    rw [bisect_same testCashflows (1e-6) 93 (253 / 6400) (213 / 1600)
      (xirr_func (253 / 6400) testCashflows) (253 / 6400) (221 / 2560) (by norm_num)
      (by rw [abs_sub_lt_iff]; norm_num)
      (by rw [npSign_pos hp7, npSign_pos hp6]) (by norm_num)]
    rw [bisect_diff testCashflows (1e-6) 92 (221 / 2560) (213 / 1600)
      (xirr_func (221 / 2560) testCashflows) (221 / 2560) (2809 / 25600) (by norm_num)
      (by rw [abs_sub_lt_iff]; norm_num)
      (by rw [npSign_neg hn8, npSign_pos hp7]; norm_num) (by norm_num)]
    rw [bisect_same testCashflows (1e-6) 91 (221 / 2560) (2809 / 25600)
      (xirr_func (221 / 2560) testCashflows) (2809 / 25600) (5019 / 51200) (by norm_num)
      (by rw [abs_sub_lt_iff]; norm_num)
      (by rw [npSign_pos hp9, npSign_pos hp7]) (by norm_num)]
    rw [bisect_diff testCashflows (1e-6) 90 (5019 / 51200) (2809 / 25600)
      (xirr_func (5019 / 51200) testCashflows) (5019 / 51200) (10637 / 102400) (by norm_num)
      (by rw [abs_sub_lt_iff]; norm_num)
      (by rw [npSign_neg hn10, npSign_pos hp9]; norm_num) (by norm_num)]
    rw [bisect_diff testCashflows (1e-6) 89 (5019 / 51200) (10637 / 102400)
      (xirr_func (5019 / 51200) testCashflows) (10637 / 102400) (827 / 8192) (by norm_num)
      (by rw [abs_sub_lt_iff]; norm_num)
      (by rw [npSign_neg hn11, npSign_pos hp9]; norm_num) (by norm_num)]
    rw [bisect_same testCashflows (1e-6) 88 (5019 / 51200) (827 / 8192)
      (xirr_func (5019 / 51200) testCashflows) (827 / 8192) (40751 / 409600) (by norm_num)
      (by rw [abs_sub_lt_iff]; norm_num)
      (by rw [npSign_pos hp12, npSign_pos hp9]) (by norm_num)]
    rw [bisect_diff testCashflows (1e-6) 87 (40751 / 409600) (827 / 8192)
      (xirr_func (40751 / 409600) testCashflows) (40751 / 409600) (82101 / 819200) (by norm_num)
      (by rw [abs_sub_lt_iff]; norm_num)
      (by rw [npSign_neg hn13, npSign_pos hp12]; norm_num) (by norm_num)]
    rw [bisect_diff testCashflows (1e-6) 86 (40751 / 409600) (82101 / 819200)
      (xirr_func (40751 / 409600) testCashflows) (82101 / 819200) (163603 / 1638400) (by norm_num)
      (by rw [abs_sub_lt_iff]; norm_num)
      (by rw [npSign_neg hn14, npSign_pos hp12]; norm_num) (by norm_num)]
    rw [bisect_same testCashflows (1e-6) 85 (40751 / 409600) (163603 / 1638400)
      (xirr_func (40751 / 409600) testCashflows) (163603 / 1638400) (326607 / 3276800) (by norm_num)
      (by rw [abs_sub_lt_iff]; norm_num)
      (by rw [npSign_pos hp15, npSign_pos hp12]) (by norm_num)]
    rw [bisect_diff testCashflows (1e-6) 84 (326607 / 3276800) (163603 / 1638400)
      (xirr_func (326607 / 3276800) testCashflows) (326607 / 3276800) (653813 / 6553600) (by norm_num)
      (by rw [abs_sub_lt_iff]; norm_num)
      (by rw [npSign_neg hn16, npSign_pos hp15]; norm_num) (by norm_num)]
    rw [bisect_diff testCashflows (1e-6) 83 (326607 / 3276800) (653813 / 6553600)
      (xirr_func (326607 / 3276800) testCashflows) (653813 / 6553600) (1307027 / 13107200) (by norm_num)
      (by rw [abs_sub_lt_iff]; norm_num)
      (by rw [npSign_neg hn17, npSign_pos hp15]; norm_num) (by norm_num)]
    rw [bisect_same testCashflows (1e-6) 82 (326607 / 3276800) (1307027 / 13107200)
      (xirr_func (326607 / 3276800) testCashflows) (1307027 / 13107200) (522691 / 5242880) (by norm_num)
      (by rw [abs_sub_lt_iff]; norm_num)
      (by rw [npSign_pos hp18, npSign_pos hp15]) (by norm_num)]
    rw [bisect_same testCashflows (1e-6) 81 (522691 / 5242880) (1307027 / 13107200)
      (xirr_func (522691 / 5242880) testCashflows) (522691 / 5242880) (5227509 / 52428800) (by norm_num)
      (by rw [abs_sub_lt_iff]; norm_num)
      (by rw [npSign_pos hp19, npSign_pos hp18]) (by norm_num)]
    rw [bisect_same testCashflows (1e-6) 80 (5227509 / 52428800) (1307027 / 13107200)
      (xirr_func (5227509 / 52428800) testCashflows) (5227509 / 52428800) (10455617 / 104857600) (by norm_num)
      (by rw [abs_sub_lt_iff]; norm_num)
      (by rw [npSign_pos hp20, npSign_pos hp19]) (by norm_num)]
    rw [bisect_diff testCashflows (1e-6) 79 (10455617 / 104857600) (1307027 / 13107200)
      (xirr_func (10455617 / 104857600) testCashflows) (10455617 / 104857600) (20911833 / 209715200) (by norm_num)
      (by rw [abs_sub_lt_iff]; norm_num)
      (by rw [npSign_neg hn21, npSign_pos hp20]; norm_num) (by norm_num)]
    rw [bisect_diff testCashflows (1e-6) 78 (10455617 / 104857600) (20911833 / 209715200)
      (xirr_func (10455617 / 104857600) testCashflows) (20911833 / 209715200) (41823067 / 419430400) (by norm_num)
      (by rw [abs_sub_lt_iff]; norm_num)
      (by rw [npSign_neg hn22, npSign_pos hp20]; norm_num) (by norm_num)]
    rw [bisect_same testCashflows (1e-6) 77 (10455617 / 104857600) (41823067 / 419430400)
      (xirr_func (10455617 / 104857600) testCashflows) (41823067 / 419430400) (16729107 / 167772160) (by norm_num)
      (by rw [abs_sub_lt_iff]; norm_num)
      (by rw [npSign_pos hp23, npSign_pos hp20]) (by norm_num)]
    rw [bisect_stop testCashflows (1e-6) 76 (16729107 / 167772160) (41823067 / 419430400)
      (xirr_func (16729107 / 167772160) testCashflows) (16729107 / 167772160) (167291669 / 1677721600)
      (by norm_num) (by rw [abs_sub_lt_iff]; constructor <;> norm_num)]
  have hlen : ¬ (testCashflows.length < 2) := by
    rw [testCashflows]
    norm_num
  unfold calculate_xirr
  rw [if_neg hlen]
  unfold xirrTry
  simp only [xirr_funcE_ok (by norm_num : (-1 : ℝ) < -0.99) testCashflows,
    xirr_funcE_ok (by norm_num : (-1 : ℝ) < 5) testCashflows, exceptBind_ok]
  rw [if_neg (not_lt.mpr (le_of_lt (mul_neg_of_pos_of_neg hpos0 hneg5))), hloop]
  norm_num

/-- C7, counterexample: on the cashflow list [(2020-01-01, -1000),
(2021-01-01, +1100)] the solver returns exactly 167291669/16777216 ≈ 9.9714
(percent), which differs from 10 by ≈ 0.0286 — outside the claimed absolute
tolerance of 0.01. -/
theorem c7_counterexample :
    ¬ |calculate_xirr testCashflows 0.1 100 (1e-6) - 10| ≤ 0.01 := by
  rw [xirr_roundtrip_value, abs_of_neg (by norm_num)]
  norm_num

/-- C7, amended (corrected tolerance): for the two-element cashflow list
[(2020-01-01, -1000), (2021-01-01, +1100)], `calculate_xirr` — anchored at
the first cashflow's date, bisecting the bracket [-0.99, 5] to width below
1e-6 within the 100-iteration cap — returns approximately 10 percent within
an absolute tolerance of 0.03 (the exact result is 167291669/16777216 ≈
9.9714; the 366-day leap year over a 365-day convention shifts the rate
below 10 by more than the 0.01 the claim allowed). -/
theorem c7_xirr_roundtrip :
    |calculate_xirr testCashflows 0.1 100 (1e-6) - 10| ≤ 0.03 := by
  rw [xirr_roundtrip_value, abs_of_neg (by norm_num)]
  norm_num

end MF
